import Mathlib

/-!
A shallow embedding of `setup.py`, the single source file of the LoSiTo
repository.  The script runs once at build time: it imports
`losito._version`, computes a long description from an optional `README.md`,
and calls `setup` with a fixed set of keyword arguments.  We model one run of
the script as a pure function from the build-time environment (whether
`losito._version` is importable and with which `__version__`, whether
`README.md` exists and with which contents, plus inputs the script never
reads) to either an error (a failed module load) or the record of arguments
passed to `setup`.  The glob semantics of the `package_data` patterns are
modelled over paths represented as lists of components.
-/

namespace Losito

/-- The build-time environment a run of `setup.py` can observe.
`versionModule` is `some v` when `import losito._version` succeeds and
`losito._version.__version__` evaluates to the string `v`, and `none` when the
module (or the attribute) is not importable.  `readme` is `some contents` when
`README.md` exists at the repository root with those contents, `none` when it
is absent.  `otherFiles` (the rest of the filesystem) and `envVars` (the
process environment) are inputs the script never touches; they are carried so
that non-interference can be stated. -/
structure Env where
  versionModule : Option String
  readme : Option String
  otherFiles : List (String × String)
  envVars : List (String × String)

/-- Line 7 of `setup.py`: the short description literal. -/
def defaultDescription : String := "The LOFAR Simulation Tool"

/-- The error a run aborts with when line 5, `import losito._version`,
fails: the interpreter raises before any further line executes. -/
def importErrorMsg : String := "ModuleNotFoundError: No module named losito._version"

/-- Line 34 of `setup.py`: the glob patterns declared for the `losito` key of
`package_data`. -/
def losito_data_patterns : List String :=
  ["./data/*", "./data/*/*", "./data/*/*/*", "./data/*/*/*/*"]

/-- Lines 21-29 of `setup.py`: the classifier strings, in declaration order. -/
def losito_classifiers : List String :=
  ["Programming Language :: Python",
   "Development Status :: Stable",
   "Natural Language :: English",
   "Intended Audience :: Science/Research",
   "Operating System :: POSIX :: Linux",
   "Topic :: Scientific/Engineering :: Astronomy",
   "Topic :: Software Development :: Libraries :: Python Modules"]

/-- The complete set of keyword arguments passed to `setup` on lines 13-36. -/
structure SetupArgs where
  name : String
  version : String
  url : String
  author : String
  description : String
  long_description : String
  platforms : String
  classifiers : List String
  python_requires : String
  install_requires : List String
  scripts : List String
  packages : List String
  package_data : List (String × List String)
  include_package_data : Bool
deriving Repr, DecidableEq

/-- Lines 8-11 of `setup.py`: `long_description` is initialised to the short
description and overwritten with the full contents of `README.md` when that
file exists. -/
def longDescriptionOf : Option String → String
  | some contents => contents
  | none => defaultDescription

/-- One run of `setup.py`.  Line 5 imports `losito._version`; if that fails
the script aborts with an import error before anything else happens.
Otherwise lines 7-11 compute the descriptions and lines 13-36 call `setup`
with the literal metadata of the file.  No other part of `env` is read. -/
def runSetupScript (env : Env) : Except String SetupArgs :=
  match env.versionModule with
  | none => Except.error importErrorMsg
  | some ver => Except.ok
      { name := "LoSiTo"
        version := ver
        url := "http://github.com/darafferty/losito/"
        author := "David Rafferty and Herik Edler"
        description := defaultDescription
        long_description := longDescriptionOf env.readme
        platforms := "any"
        classifiers := losito_classifiers
        python_requires := ">3.6.0"
        install_requires := ["numpy", "scipy", "astropy", "RMextract"]
        scripts := ["bin/losito", "bin/skymodel", "bin/synthms", "bin/tecscreen"]
        packages := ["losito", "losito.operations"]
        package_data := [("losito", losito_data_patterns)]
        include_package_data := true }

/-! ### Glob semantics of the `package_data` patterns

At build time setuptools expands each `package_data` pattern with Python's
`glob` relative to the package directory.  A relative path is modelled as its
list of slash-separated components.  The declared patterns use only literal
components and bare `*` components, so componentwise matching suffices; the
one subtlety of Python's `glob` that matters is that `*` never matches a name
beginning with a dot. -/

/-- Split a pattern string at every slash. -/
def splitSlashChars : List Char → List (List Char)
  | [] => [[]]
  | c :: cs =>
    if c = '/' then [] :: splitSlashChars cs
    else
      match splitSlashChars cs with
      | [] => [[c]]
      | g :: gs => (c :: g) :: gs

/-- The slash-separated components of a pattern string. -/
def splitSlash (s : String) : List String :=
  (splitSlashChars s.toList).map fun cs => String.mk cs

/-- Whether a path or pattern component begins with a dot. -/
def startsWithDot (s : String) : Bool :=
  match s.toList with
  | [] => false
  | c :: _ => c = '.'

/-- The components of a glob pattern, with the leading `./` dropped: a `.`
path component is the identity and does not consume a component of the
matched path. -/
def globComponents (pat : String) : List String :=
  (splitSlash pat).filter fun s => s != "."

/-- One pattern component against one path component: `*` matches any name
not beginning with a dot (Python's `glob` hidden-file rule); a literal
component matches only itself. -/
def componentMatches (pat c : String) : Bool :=
  if pat = "*" then !(startsWithDot c) else pat == c

/-- Componentwise matching of a pattern against a path: the pattern must
account for every component, so a pattern of depth `k` matches exactly paths
of depth `k`. -/
def patternMatches : List String → List String → Bool
  | [], [] => true
  | p :: ps, c :: cs => componentMatches p c && patternMatches ps cs
  | _, _ => false

/-- Whether a file at relative path `path` below the package directory is
picked up by at least one of the declared glob patterns. -/
def bundles (pats : List String) (path : List String) : Bool :=
  pats.any fun pat => patternMatches (globComponents pat) path

/-! ### Concrete environments used by the witnesses -/

/-- A build environment in which `losito._version` is importable, `README.md`
exists, and some unrelated files and environment variables are present. -/
def envWithReadme : Env :=
  { versionModule := some "2.0"
    readme := some "LoSiTo readme text"
    otherFiles := [("LICENSE", "GPL")]
    envVars := [("HOME", "/home/user")] }

/-- Like `envWithReadme` in everything the script reads, but with different
unrelated files and environment variables. -/
def envWithReadmeAlt : Env :=
  { versionModule := some "2.0"
    readme := some "LoSiTo readme text"
    otherFiles := []
    envVars := [("PATH", "/usr/bin")] }

/-- A build environment with no `README.md`. -/
def envNoReadme : Env :=
  { versionModule := some "2.0"
    readme := none
    otherFiles := []
    envVars := [] }

/-- A build environment in which `losito._version` cannot be imported even
though `README.md` is present. -/
def envNoVersion : Env :=
  { versionModule := none
    readme := some "LoSiTo readme text"
    otherFiles := []
    envVars := [] }

/-! ### Lemmas about the glob patterns -/

/-- A star component matches exactly the components not beginning with a
dot. -/
theorem componentMatches_star (c : String) :
    componentMatches "*" c = !(startsWithDot c) := rfl

/-- The literal component `data` matches a component exactly when it equals
`data`. -/
theorem componentMatches_data (c : String) :
    componentMatches "data" c = ("data" == c) := rfl

/-- A sequence of `k` star components matches exactly the component lists of
length `k` none of whose entries begins with a dot. -/
theorem patternMatches_replicate_star (k : Nat) (cs : List String) :
    patternMatches (List.replicate k "*") cs = true ↔
      cs.length = k ∧ ∀ c ∈ cs, startsWithDot c = false := by
  induction k generalizing cs with
  | zero =>
    cases cs with
    | nil => simp [patternMatches]
    | cons c cs => simp [patternMatches]
  | succ k ih =>
    cases cs with
    | nil => simp [patternMatches, List.replicate_succ]
    | cons c cs =>
      simp only [List.replicate_succ, patternMatches, componentMatches_star,
        Bool.and_eq_true, Bool.not_eq_true', ih, List.length_cons, List.forall_mem_cons]
      constructor
      · rintro ⟨h1, h2, h3⟩
        exact ⟨by omega, h1, h3⟩
      · rintro ⟨h1, h2, h3⟩
        exact ⟨h2, by omega, h3⟩

/-- A pattern of the shape `data/*/.../*` with `k` stars matches exactly the
paths that descend `k` levels below `data` through components not beginning
with a dot. -/
theorem patternMatches_data_star (k : Nat) (path : List String) :
    patternMatches ("data" :: List.replicate k "*") path = true ↔
      ∃ rest, path = "data" :: rest ∧ rest.length = k ∧
        ∀ c ∈ rest, startsWithDot c = false := by
  cases path with
  | nil => simp [patternMatches]
  | cons p rest =>
    simp only [patternMatches, componentMatches_data, Bool.and_eq_true, beq_iff_eq,
      patternMatches_replicate_star, List.cons.injEq]
    constructor
    · rintro ⟨h1, h2, h3⟩
      exact ⟨rest, ⟨h1.symm, rfl⟩, h2, h3⟩
    · rintro ⟨r, ⟨h1, h2⟩, h3, h4⟩
      subst h2
      exact ⟨h1.symm, h3, h4⟩

/-- The components of the first declared pattern. -/
theorem globComponents_pat1 : globComponents "./data/*" = "data" :: List.replicate 1 "*" := by
  decide

/-- The components of the second declared pattern. -/
theorem globComponents_pat2 : globComponents "./data/*/*" = "data" :: List.replicate 2 "*" := by
  decide

/-- The components of the third declared pattern. -/
theorem globComponents_pat3 : globComponents "./data/*/*/*" = "data" :: List.replicate 3 "*" := by
  decide

/-- The components of the fourth declared pattern. -/
theorem globComponents_pat4 : globComponents "./data/*/*/*/*" = "data" :: List.replicate 4 "*" := by
  decide

/-- Characterisation of the files picked up by the declared `package_data`
patterns: exactly the paths one to four levels below `data` all of whose
components below `data` avoid a leading dot. -/
theorem bundles_losito_iff (path : List String) :
    bundles losito_data_patterns path = true ↔
      ∃ rest, path = "data" :: rest ∧ 1 ≤ rest.length ∧ rest.length ≤ 4 ∧
        ∀ c ∈ rest, startsWithDot c = false := by
  simp only [bundles, losito_data_patterns, List.any_cons, List.any_nil,
    Bool.or_eq_true, Bool.or_eq_false_iff, globComponents_pat1, globComponents_pat2,
    globComponents_pat3, globComponents_pat4, patternMatches_data_star]
  constructor
  · rintro (⟨r, h1, h2, h3⟩ | ⟨r, h1, h2, h3⟩ | ⟨r, h1, h2, h3⟩ | ⟨r, h1, h2, h3⟩ | h)
    · exact ⟨r, h1, by omega, by omega, h3⟩
    · exact ⟨r, h1, by omega, by omega, h3⟩
    · exact ⟨r, h1, by omega, by omega, h3⟩
    · exact ⟨r, h1, by omega, by omega, h3⟩
    · simp at h
  · rintro ⟨r, h1, h2, h3, h4⟩
    have hlen : r.length = 1 ∨ r.length = 2 ∨ r.length = 3 ∨ r.length = 4 := by omega
    rcases hlen with h | h | h | h
    · exact Or.inl ⟨r, h1, h, h4⟩
    · exact Or.inr (Or.inl ⟨r, h1, h, h4⟩)
    · exact Or.inr (Or.inr (Or.inl ⟨r, h1, h, h4⟩))
    · exact Or.inr (Or.inr (Or.inr (Or.inl ⟨r, h1, h, h4⟩)))

/-! ### The claims -/

/-- Claim C1: whenever the script reaches the description computation (the
version module is importable), the call to `setup` happens, and the
`long_description` argument is the full contents of `README.md` when that
file exists and the literal fallback string otherwise; an absent `README.md`
never makes the run fail. -/
theorem C1_long_description_fallback (env : Env) (v : String)
    (hv : env.versionModule = some v) :
    ∃ args, runSetupScript env = Except.ok args ∧
      args.long_description = env.readme.getD "The LOFAR Simulation Tool" := by
  refine ⟨_, by rw [runSetupScript, hv], ?_⟩
  cases env.readme <;> rfl

/-- Witness for C1 at a concrete environment with a `README.md` present. -/
theorem C1_long_description_fallback_witness :
    envWithReadme.versionModule = some "2.0" ∧
    ∃ args, runSetupScript envWithReadme = Except.ok args ∧
      args.long_description = envWithReadme.readme.getD "The LOFAR Simulation Tool" :=
  ⟨rfl, C1_long_description_fallback envWithReadme "2.0" rfl⟩

/-- Claim C2, refuted at a concrete input: `data/.hidden` is a path exactly
one level below the `data` directory, yet no declared `package_data` pattern
picks it up, because a glob star never matches a component beginning with a
dot; so not every file one to four levels below `data` is bundled. -/
theorem C2_counterexample :
    (["data", ".hidden"] : List String) = "data" :: [".hidden"] ∧
    ([".hidden"] : List String).length = 1 ∧
    bundles losito_data_patterns ["data", ".hidden"] = false := by
  refine ⟨rfl, rfl, ?_⟩
  decide

/-- Claim C2 as amended: the declared `package_data` patterns bundle, under
the `losito` package, exactly the files one to four levels below the `data`
directory all of whose components below `data` do not begin with a dot, and
in particular no file deeper than four levels. -/
theorem C2_package_data_depths (path : List String) :
    bundles losito_data_patterns path = true ↔
      ∃ rest, path = "data" :: rest ∧ 1 ≤ rest.length ∧ rest.length ≤ 4 ∧
        ∀ c ∈ rest, startsWithDot c = false :=
  bundles_losito_iff path

/-- Claim C3: every successful run passes `name` equal to the literal
`LoSiTo` and `version` equal to the build-time value of
`losito._version.__version__`. -/
theorem C3_name_and_version (env : Env) (v : String)
    (hv : env.versionModule = some v) :
    ∃ args, runSetupScript env = Except.ok args ∧
      args.name = "LoSiTo" ∧ args.version = v :=
  ⟨_, by rw [runSetupScript, hv], rfl, rfl⟩

/-- Witness for C3 at a concrete environment. -/
theorem C3_name_and_version_witness :
    envNoReadme.versionModule = some "2.0" ∧
    ∃ args, runSetupScript envNoReadme = Except.ok args ∧
      args.name = "LoSiTo" ∧ args.version = "2.0" :=
  ⟨rfl, C3_name_and_version envNoReadme "2.0" rfl⟩

/-- Claim C4: every successful run registers exactly the four declared
scripts `bin/losito`, `bin/skymodel`, `bin/synthms`, `bin/tecscreen`, in that
order and no others. -/
theorem C4_scripts_exact (env : Env) (args : SetupArgs)
    (h : runSetupScript env = Except.ok args) :
    args.scripts = ["bin/losito", "bin/skymodel", "bin/synthms", "bin/tecscreen"] := by
  rw [runSetupScript] at h
  cases hv : env.versionModule with
  | none => rw [hv] at h; exact absurd h (by simp)
  | some v => rw [hv] at h; injection h with h; rw [← h]

/-- Witness for C4 at a concrete environment. -/
theorem C4_scripts_exact_witness :
    ∃ args, runSetupScript envNoReadme = Except.ok args ∧
      args.scripts = ["bin/losito", "bin/skymodel", "bin/synthms", "bin/tecscreen"] :=
  ⟨_, rfl, C4_scripts_exact envNoReadme _ rfl⟩

/-- Claim C5: every successful run registers exactly the two packages
`losito` and `losito.operations` and no others. -/
theorem C5_packages_exact (env : Env) (args : SetupArgs)
    (h : runSetupScript env = Except.ok args) :
    args.packages = ["losito", "losito.operations"] := by
  rw [runSetupScript] at h
  cases hv : env.versionModule with
  | none => rw [hv] at h; exact absurd h (by simp)
  | some v => rw [hv] at h; injection h with h; rw [← h]

/-- Witness for C5 at a concrete environment. -/
theorem C5_packages_exact_witness :
    ∃ args, runSetupScript envNoReadme = Except.ok args ∧
      args.packages = ["losito", "losito.operations"] :=
  ⟨_, rfl, C5_packages_exact envNoReadme _ rfl⟩

/-- Claim C6: every successful run declares exactly the four runtime
dependencies `numpy`, `scipy`, `astropy` and `RMextract`. -/
theorem C6_install_requires_exact (env : Env) (args : SetupArgs)
    (h : runSetupScript env = Except.ok args) :
    args.install_requires = ["numpy", "scipy", "astropy", "RMextract"] := by
  rw [runSetupScript] at h
  cases hv : env.versionModule with
  | none => rw [hv] at h; exact absurd h (by simp)
  | some v => rw [hv] at h; injection h with h; rw [← h]

/-- Witness for C6 at a concrete environment. -/
theorem C6_install_requires_exact_witness :
    ∃ args, runSetupScript envNoReadme = Except.ok args ∧
      args.install_requires = ["numpy", "scipy", "astropy", "RMextract"] :=
  ⟨_, rfl, C6_install_requires_exact envNoReadme _ rfl⟩

/-- Claim C7: every successful run passes the strict lower bound string
`>3.6.0` as `python_requires`, which is not the greater-or-equal bound
`>=3.6.0`. -/
theorem C7_python_requires_strict (env : Env) (args : SetupArgs)
    (h : runSetupScript env = Except.ok args) :
    args.python_requires = ">3.6.0" ∧ args.python_requires ≠ ">=3.6.0" := by
  rw [runSetupScript] at h
  cases hv : env.versionModule with
  | none => rw [hv] at h; exact absurd h (by simp)
  | some v =>
    rw [hv] at h; injection h with h; rw [← h]
    exact ⟨rfl, show (">3.6.0" : String) ≠ ">=3.6.0" by decide⟩

/-- Witness for C7 at a concrete environment. -/
theorem C7_python_requires_strict_witness :
    ∃ args, runSetupScript envNoReadme = Except.ok args ∧
      args.python_requires = ">3.6.0" ∧ args.python_requires ≠ ">=3.6.0" :=
  ⟨_, rfl, C7_python_requires_strict envNoReadme _ rfl⟩

/-- Claim C8: the script is deterministic in the only two inputs it reads:
two runs that agree on the existence and contents of `README.md` and on the
importability and value of `losito._version.__version__` produce identical
outcomes, whatever the rest of the filesystem and the process environment
look like. -/
theorem C8_deterministic (env1 env2 : Env)
    (hr : env1.readme = env2.readme)
    (hv : env1.versionModule = env2.versionModule) :
    runSetupScript env1 = runSetupScript env2 := by
  rw [runSetupScript, runSetupScript, hr, hv]

/-- Witness for C8: two concrete environments differing only in unrelated
files and environment variables yield identical outcomes. -/
theorem C8_deterministic_witness :
    envWithReadmeAlt.readme = envWithReadme.readme ∧
    envWithReadmeAlt.versionModule = envWithReadme.versionModule ∧
    runSetupScript envWithReadmeAlt = runSetupScript envWithReadme :=
  ⟨rfl, rfl, C8_deterministic envWithReadmeAlt envWithReadme rfl rfl⟩

/-- Claim C9: the `description` argument of every successful run is the
literal short string, untouched by the presence or contents of `README.md`;
only `long_description` is affected by the README branch. -/
theorem C9_description_frame (env : Env) (args : SetupArgs)
    (h : runSetupScript env = Except.ok args) :
    args.description = "The LOFAR Simulation Tool" := by
  rw [runSetupScript] at h
  cases hv : env.versionModule with
  | none => rw [hv] at h; exact absurd h (by simp)
  | some v => rw [hv] at h; injection h with h; rw [← h]; rfl

/-- Witness for C9 at a concrete environment whose `README.md` holds
different text. -/
theorem C9_description_frame_witness :
    ∃ args, runSetupScript envWithReadme = Except.ok args ∧
      args.description = "The LOFAR Simulation Tool" :=
  ⟨_, rfl, C9_description_frame envWithReadme _ rfl⟩

/-- Claim C10: the version module is loaded eagerly before any other work,
so when `losito._version` (or its version attribute) is not importable the
run aborts with the module error and `setup` is never called, whatever the
state of `README.md`. -/
theorem C10_version_module_required (env : Env)
    (hv : env.versionModule = none) :
    runSetupScript env = Except.error importErrorMsg ∧
    ∀ args, runSetupScript env ≠ Except.ok args := by
  rw [runSetupScript, hv]
  exact ⟨rfl, fun args h => by injection h⟩

/-- Witness for C10 at a concrete environment in which `README.md` exists
but the version module does not load. -/
theorem C10_version_module_required_witness :
    envNoVersion.versionModule = none ∧
    (runSetupScript envNoVersion = Except.error importErrorMsg ∧
     ∀ args, runSetupScript envNoVersion ≠ Except.ok args) :=
  ⟨rfl, C10_version_module_required envNoVersion rfl⟩

end Losito
